import Mathlib

/-!
Shallow embedding of the core logic of `src/dashboard.py` (Titanic survival
dashboard): the filter-and-aggregate pipeline (lines 46-83) and the bar
annotation helper `add_bar_labels` (lines 25-39), together with the proofs of
the specification's testable properties.

Modelling conventions:
* a pandas dataframe row is a `Passenger`; the dataframe is a `List Passenger`
  in row order;
* numeric columns are `ℚ`; the `age` and `fare` columns may hold missing
  values (pandas `NaN`), modelled as `Option ℚ` with `none` for a missing
  entry; pandas `Series.mean()` skips missing values and returns `NaN` when no
  value is present, modelled as `none`;
* the three `multiselect` widgets yield a `FilterSelection`: one list of
  allowed values per filtered column;
* Python float formatting `f"{x:.1f}"` is modelled over `ℚ` with round
  half-to-even to one decimal place, which is Python's behaviour on the exact
  decimal values arising here.
-/

namespace Titanic

/-- One row of the processed Titanic CSV
(columns `sex, pclass, embark_town, age, fare, family_size, survived`). -/
structure Passenger where
  sex : String
  pclass : Int
  embark_town : String
  age : Option ℚ
  fare : Option ℚ
  family_size : Int
  survived : ℚ
deriving DecidableEq

/-- The three sidebar multiselect values (dashboard.py lines 46-62):
allowed `sex` values, allowed `pclass` values, allowed `embark_town` values. -/
structure FilterSelection where
  gender_filter : List String
  class_filter : List Int
  embark_filter : List String
deriving DecidableEq

/-- pandas `Series.unique()`: the distinct values of a column in order of
first appearance. -/
def pdUnique {α : Type} [DecidableEq α] (xs : List α) : List α :=
  xs.foldl (fun acc x => if x ∈ acc then acc else acc ++ [x]) []

/-- The default value of the sidebar widgets: every distinct value of each
column is selected (`default=df['sex'].unique()` etc.; the class options are
additionally run through Python's `sorted`). -/
def default_selection (df : List Passenger) : FilterSelection :=
  ⟨pdUnique (df.map Passenger.sex),
   (pdUnique (df.map Passenger.pclass)).mergeSort (fun a b => decide (a ≤ b)),
   pdUnique (df.map Passenger.embark_town)⟩

/-- The row predicate of dashboard.py lines 65-69:
`df['sex'].isin(gender_filter) & df['pclass'].isin(class_filter)
 & df['embark_town'].isin(embark_filter)`. -/
def row_pass (s : FilterSelection) (r : Passenger) : Bool :=
  s.gender_filter.contains r.sex && s.class_filter.contains r.pclass &&
    s.embark_filter.contains r.embark_town

/-- `filtered_df = df[mask]` (dashboard.py lines 65-69): boolean-mask row
selection, keeping dataframe row order. -/
def filtered_df (df : List Passenger) (s : FilterSelection) : List Passenger :=
  df.filter (row_pass s)

/-- `total_passengers = len(filtered_df)` (line 80). -/
def total_passengers (fdf : List Passenger) : Nat := fdf.length

/-- `survival_rate = filtered_df['survived'].mean() * 100 if total_passengers > 0 else 0`
(line 81). The `survived` column has no missing values, so its mean over a
non-empty frame is sum divided by count. -/
def survival_rate (fdf : List Passenger) : ℚ :=
  if 0 < fdf.length then ((fdf.map Passenger.survived).sum / (fdf.length : ℚ)) * 100
  else 0

/-- pandas `Series.mean()` over a column with possible missing values:
missing entries are skipped; the result is `NaN` (here `none`) when no value
is present. -/
def mean_skipna (xs : List (Option ℚ)) : Option ℚ :=
  if 0 < (xs.filterMap id).length then
    some ((xs.filterMap id).sum / ((xs.filterMap id).length : ℚ))
  else none

/-- The value of an optional column entry is non-negative whenever it is
present (a missing entry passes vacuously). -/
def nonneg_if_present (o : Option ℚ) : Bool :=
  match o with
  | none => true
  | some a => decide (0 ≤ a)

/-- `avg_age = filtered_df['age'].mean() if total_passengers > 0 else 0` (line 82). -/
def avg_age (fdf : List Passenger) : Option ℚ :=
  if 0 < fdf.length then mean_skipna (fdf.map Passenger.age) else some 0

/-- `avg_fare = filtered_df['fare'].mean() if total_passengers > 0 else 0` (line 83). -/
def avg_fare (fdf : List Passenger) : Option ℚ :=
  if 0 < fdf.length then mean_skipna (fdf.map Passenger.fare) else some 0

/-- Floor of a rational; the denominator is positive, so this is Euclidean
division of the numerator by the denominator. -/
def ratFloor (q : ℚ) : Int := q.num.ediv (q.den : Int)

/-- Python `int(...)` on a float: truncation toward zero. -/
def pyInt (q : ℚ) : Int := if q < 0 then -(ratFloor (-q)) else ratFloor q

/-- Rounding to the nearest integer with ties to even, the rounding Python
uses when formatting a float with `"%.1f"` (exact at the decimal values
arising from integer counts here). -/
def roundHalfEven (q : ℚ) : Int :=
  if q - (ratFloor q : ℚ) < 1/2 then ratFloor q
  else if (1 : ℚ)/2 < q - (ratFloor q : ℚ) then ratFloor q + 1
  else if ratFloor q % 2 = 0 then ratFloor q else ratFloor q + 1

/-- Python `f"{x:.1f}"`: fixed-point rendering with one decimal digit. -/
def format1f (q : ℚ) : String :=
  if roundHalfEven (q * 10) < 0 then
    "-" ++ toString ((-(roundHalfEven (q * 10))) / 10) ++ "." ++
      toString ((-(roundHalfEven (q * 10))) % 10)
  else
    toString (roundHalfEven (q * 10) / 10) ++ "." ++
      toString (roundHalfEven (q * 10) % 10)

/-- The label of one bar segment (dashboard.py line 33):
`f'{int(h)}\n({h/total_count*100:.1f}%)' if h > 0 else ""`. -/
def bar_label (total_count : ℚ) (h : ℚ) : String :=
  if 0 < h then
    toString (pyInt h) ++ "\n(" ++ format1f (h / total_count * 100) ++ "%)"
  else ""

/-- `add_bar_labels` restricted to one bar container: the list of labels for
its segment heights, in order (dashboard.py lines 32-35). -/
def add_bar_labels (heights : List ℚ) (total_count : ℚ) : List String :=
  heights.map (bar_label total_count)

/-- The helper over a whole axis: one label list per container (line 30). -/
def add_bar_labels_ax (containers : List (List ℚ)) (total_count : ℚ) :
    List (List String) :=
  containers.map fun c => add_bar_labels c total_count

/-- Instrumented version of the label comprehension for one container: the
second component counts how many times the branch containing the division
`h/total_count` is evaluated (the Python conditional expression evaluates
that f-string, and hence the division, only when `h > 0`). -/
def add_bar_labels_trace (heights : List ℚ) (total_count : ℚ) :
    List String × Nat :=
  heights.foldr
    (fun h acc =>
      if 0 < h then (bar_label total_count h :: acc.1, acc.2 + 1)
      else ("" :: acc.1, acc.2))
    ([], 0)

/-- The `total_count` argument of every `add_bar_labels` call in the script
(lines 107, 117, 132): `total_passengers` of the current Filtered View,
passed unconditionally on every render. -/
def render_total (df : List Passenger) (s : FilterSelection) : ℚ :=
  (total_passengers (filtered_df df s) : ℚ)

/-- The bar heights of a seaborn `countplot(data=fdf, x=..., hue='survived')`
(lines 103, 114, 129): one container per hue level present in the data, one
bar per category present, with height the number of matching rows. An empty
frame has no hue levels and no categories, hence no containers. -/
def countplot_containers {α : Type} [DecidableEq α]
    (fdf : List Passenger) (x : Passenger → α) : List (List ℚ) :=
  (pdUnique (fdf.map Passenger.survived)).map fun hv =>
    (pdUnique (fdf.map x)).map fun c =>
      ((fdf.filter fun r => decide (x r = c) && decide (r.survived = hv)).length : ℚ)

/-- The program state the render pass can see: the cached dataset `df`
(line 20). -/
structure AppState where
  df : List Passenger
deriving DecidableEq

/-- The Filtered View together with the four KPI scalars of lines 80-83. -/
structure MetricsSnapshot where
  filtered : List Passenger
  total : Nat
  rate : ℚ
  age_mean : Option ℚ
  fare_mean : Option ℚ
deriving DecidableEq

/-- One render pass of the filter-and-aggregate section (lines 65-83) as a
state transformer: it reads `st.df`, builds the Filtered View and the metrics
and returns them alongside the state; the boolean-mask selection `df[mask]`
allocates a new frame and writes nothing back to `df`. -/
def run_filter_and_aggregate (st : AppState) (s : FilterSelection) :
    AppState × MetricsSnapshot :=
  let fdf := filtered_df st.df s
  (st, ⟨fdf, total_passengers fdf, survival_rate fdf, avg_age fdf, avg_fare fdf⟩)

/-- The four-record example dataset of the specification's scenario (§8):
(male, 1, Southampton, survived=1), (female, 1, Cherbourg, survived=1),
(male, 3, Southampton, survived=0), (female, 2, Queenstown, survived=0);
ages and fares are arbitrary present values. -/
def exampleDf : List Passenger :=
  [⟨"male", 1, "Southampton", some 22, some 70, 1, 1⟩,
   ⟨"female", 1, "Cherbourg", some 38, some 80, 2, 1⟩,
   ⟨"male", 3, "Southampton", some 25, some 8, 1, 0⟩,
   ⟨"female", 2, "Queenstown", some 30, some 15, 3, 0⟩]

/-- The scenario's Filter Selection: `pclass ∈ {1}`, the other two columns at
their defaults (all distinct values of `exampleDf`). -/
def examplePclass1 : FilterSelection :=
  ⟨["male", "female"], [1], ["Southampton", "Cherbourg", "Queenstown"]⟩

/-- A Filter Selection whose allowed set for `sex` is empty. -/
def exampleEmptySex : FilterSelection :=
  ⟨[], [1, 2, 3], ["Southampton", "Cherbourg", "Queenstown"]⟩

/-- A one-row dataset whose only `age` entry is missing (pandas NaN). -/
def exampleMissingAgeDf : List Passenger :=
  [⟨"male", 1, "Southampton", none, some 10, 1, 1⟩]

/-- The all-values-allowed selection for `exampleMissingAgeDf`. -/
def exampleMissingAgeSel : FilterSelection :=
  ⟨["male"], [1], ["Southampton"]⟩

section MemLemmas

variable {α : Type} [DecidableEq α]

theorem mem_pdUnique_foldl (xs : List α) (acc : List α) (a : α) :
    (a ∈ xs.foldl (fun acc x => if x ∈ acc then acc else acc ++ [x]) acc) ↔
      a ∈ acc ∨ a ∈ xs := by
  induction xs generalizing acc with
  | nil => simp
  | cons x xs ih =>
      rw [List.foldl_cons, ih]
      by_cases hx : x ∈ acc
      · simp only [if_pos hx, List.mem_cons]
        constructor
        · rintro (h | h)
          · exact Or.inl h
          · exact Or.inr (Or.inr h)
        · rintro (h | h | h)
          · exact Or.inl h
          · exact Or.inl (h ▸ hx)
          · exact Or.inr h
      · simp only [if_neg hx, List.mem_append, List.mem_singleton, List.mem_cons]
        tauto

theorem mem_pdUnique (xs : List α) (a : α) : a ∈ pdUnique xs ↔ a ∈ xs := by
  rw [pdUnique, mem_pdUnique_foldl]
  simp

end MemLemmas

theorem ratFloor_intCast (n : ℤ) : ratFloor (n : ℚ) = n := by
  simp only [ratFloor, Rat.num_intCast, Rat.den_intCast, Nat.cast_one]
  exact Int.ediv_one n

theorem roundHalfEven_intCast (n : ℤ) : roundHalfEven (n : ℚ) = n := by
  norm_num [roundHalfEven, ratFloor_intCast]

theorem format1f_intCast (q : ℚ) (n : ℤ) (hn : 0 ≤ n) (h : q * 10 = (n : ℚ)) :
    format1f q = toString (n / 10) ++ "." ++ toString (n % 10) := by
  rw [format1f, h, roundHalfEven_intCast, if_neg (by omega)]

theorem mem_filtered_df (df : List Passenger) (s : FilterSelection) (r : Passenger) :
    r ∈ filtered_df df s ↔
      r ∈ df ∧ r.sex ∈ s.gender_filter ∧ r.pclass ∈ s.class_filter ∧
        r.embark_town ∈ s.embark_filter := by
  simp [filtered_df, row_pass, List.mem_filter, and_assoc]

/-- C1: the Filtered View holds exactly the dataset rows whose `sex`,
`pclass` and `embark_town` values each lie in the corresponding allowed set:
membership in the result is equivalent to membership in the dataset together
with the three per-column membership conditions (OR within a column via set
membership, AND across columns). -/
theorem filtered_view_characterization (df : List Passenger) (s : FilterSelection)
    (r : Passenger) :
    r ∈ filtered_df df s ↔
      r ∈ df ∧ r.sex ∈ s.gender_filter ∧ r.pclass ∈ s.class_filter ∧
        r.embark_town ∈ s.embark_filter :=
  mem_filtered_df df s r

/-- C2: filtering with the default selection (each column's allowed set equal
to all distinct values observed in the dataset for that column) returns the
whole dataset unchanged. -/
theorem filtered_view_default_identity (df : List Passenger) :
    filtered_df df (default_selection df) = df := by
  rw [filtered_df, List.filter_eq_self]
  intro r hr
  have hsex : r.sex ∈ pdUnique (df.map Passenger.sex) :=
    (mem_pdUnique _ _).mpr (List.mem_map_of_mem Passenger.sex hr)
  have hcl : r.pclass ∈ pdUnique (df.map Passenger.pclass) :=
    (mem_pdUnique _ _).mpr (List.mem_map_of_mem Passenger.pclass hr)
  have hem : r.embark_town ∈ pdUnique (df.map Passenger.embark_town) :=
    (mem_pdUnique _ _).mpr (List.mem_map_of_mem Passenger.embark_town hr)
  simp [row_pass, default_selection, hsex, hcl, hem, List.mem_mergeSort]

/-- C3: when the Filtered View is empty (for instance because an allowed set
excludes every distinct value of its column, in particular the empty allowed
set), the metrics are `total_count = 0` and
`survival_rate = avg_age = avg_fare = 0`; each metric comes from the guarded
`else 0` branch, so the division by the zero count is never performed. -/
theorem empty_view_metrics_zero (df : List Passenger) (s : FilterSelection)
    (h : filtered_df df s = []) :
    total_passengers (filtered_df df s) = 0 ∧
      survival_rate (filtered_df df s) = 0 ∧
      avg_age (filtered_df df s) = some 0 ∧
      avg_fare (filtered_df df s) = some 0 := by
  rw [h]
  simp [total_passengers, survival_rate, avg_age, avg_fare]

theorem empty_view_metrics_zero_witness :
    filtered_df exampleDf exampleEmptySex = [] ∧
      total_passengers (filtered_df exampleDf exampleEmptySex) = 0 ∧
      survival_rate (filtered_df exampleDf exampleEmptySex) = 0 ∧
      avg_age (filtered_df exampleDf exampleEmptySex) = some 0 ∧
      avg_fare (filtered_df exampleDf exampleEmptySex) = some 0 :=
  ⟨by decide, empty_view_metrics_zero exampleDf exampleEmptySex (by decide)⟩

/-- C4: on a non-empty Filtered View the metrics are exactly the record
count, 100 times the mean of `survived`, and the missing-value-skipping means
of `age` and `fare`; moreover, on the specification's four-record scenario
with filter `pclass ∈ {1}` the view has 2 records, `total_count = 2` and
`survival_rate = 100`. -/
theorem metrics_on_nonempty :
    (∀ (df : List Passenger) (s : FilterSelection), filtered_df df s ≠ [] →
        total_passengers (filtered_df df s) = (filtered_df df s).length ∧
        survival_rate (filtered_df df s) =
          ((filtered_df df s).map Passenger.survived).sum /
              ((filtered_df df s).length : ℚ) * 100 ∧
        avg_age (filtered_df df s) =
          mean_skipna ((filtered_df df s).map Passenger.age) ∧
        avg_fare (filtered_df df s) =
          mean_skipna ((filtered_df df s).map Passenger.fare)) ∧
      (filtered_df exampleDf examplePclass1).length = 2 ∧
      total_passengers (filtered_df exampleDf examplePclass1) = 2 ∧
      survival_rate (filtered_df exampleDf examplePclass1) = 100 := by
  constructor
  · intro df s h
    have hl : 0 < (filtered_df df s).length := List.length_pos.mpr h
    refine ⟨rfl, ?_, ?_, ?_⟩
    · rw [survival_rate, if_pos hl]
    · rw [avg_age, if_pos hl]
    · rw [avg_fare, if_pos hl]
  · refine ⟨by decide, by decide, ?_⟩
    have hf : filtered_df exampleDf examplePclass1 =
        [⟨"male", 1, "Southampton", some 22, some 70, 1, 1⟩,
         ⟨"female", 1, "Cherbourg", some 38, some 80, 2, 1⟩] := by decide
    rw [hf, survival_rate]
    norm_num

theorem metrics_on_nonempty_witness :
    total_passengers (filtered_df exampleDf examplePclass1) =
        (filtered_df exampleDf examplePclass1).length ∧
      survival_rate (filtered_df exampleDf examplePclass1) =
        ((filtered_df exampleDf examplePclass1).map Passenger.survived).sum /
            ((filtered_df exampleDf examplePclass1).length : ℚ) * 100 :=
  ⟨(metrics_on_nonempty.1 exampleDf examplePclass1 (by decide)).1,
   (metrics_on_nonempty.1 exampleDf examplePclass1 (by decide)).2.1⟩

/-- C6: for every container and total count, `add_bar_labels` produces per
segment, in order, the label `"{int(h)}\n({h/total*100:.1f}%)"` when the
height `h` is positive and the empty string when it is zero; in particular on
heights `[0, 5, 3]` with total count 8 the labels are
`["", "5\n(62.5%)", "3\n(37.5%)"]`. -/
theorem bar_labels_format :
    (∀ (hs : List ℚ) (t : ℚ), 0 < t →
        add_bar_labels hs t = hs.map fun h =>
          if 0 < h then
            toString (pyInt h) ++ "\n(" ++ format1f (h / t * 100) ++ "%)"
          else "") ∧
      add_bar_labels [0, 5, 3] 8 = ["", "5\n(62.5%)", "3\n(37.5%)"] := by
  constructor
  · intro hs t _
    simp [add_bar_labels, bar_label]
  · have h0 : bar_label 8 (0 : ℚ) = "" := by
      rw [bar_label, if_neg (by norm_num : ¬ (0 : ℚ) < 0)]
    have h5 : bar_label 8 (5 : ℚ) = "5\n(62.5%)" := by
      rw [bar_label, if_pos (by norm_num : (0 : ℚ) < 5),
        format1f_intCast ((5 : ℚ) / 8 * 100) 625 (by norm_num) (by norm_num)]
      have hp : pyInt 5 = 5 := by decide
      rw [hp]
      decide
    have h3 : bar_label 8 (3 : ℚ) = "3\n(37.5%)" := by
      rw [bar_label, if_pos (by norm_num : (0 : ℚ) < 3),
        format1f_intCast ((3 : ℚ) / 8 * 100) 375 (by norm_num) (by norm_num)]
      have hp : pyInt 3 = 3 := by decide
      rw [hp]
      decide
    show [bar_label 8 0, bar_label 8 5, bar_label 8 3] = _
    rw [h0, h5, h3]

theorem bar_labels_format_witness :
    add_bar_labels [0, 5, 3] 8 = ([0, 5, 3] : List ℚ).map fun h =>
      if 0 < h then
        toString (pyInt h) ++ "\n(" ++ format1f (h / 8 * 100) ++ "%)"
      else "" :=
  bar_labels_format.1 [0, 5, 3] 8 (by norm_num)

/-- C8: one render pass of the filter-and-aggregate section is a pure
function of the dataset and the Filter Selection: it returns the program
state — and with it the dataset's rows, columns and values — unchanged, and
the Filtered View it produces is a subsequence of the dataset's rows rather
than a mutation of them. -/
theorem render_preserves_dataset (st : AppState) (s : FilterSelection) :
    (run_filter_and_aggregate st s).1 = st ∧
      (run_filter_and_aggregate st s).2.filtered.Sublist st.df :=
  ⟨rfl, List.filter_sublist st.df⟩

theorem trace_labels (hs : List ℚ) (t : ℚ) :
    (add_bar_labels_trace hs t).1 = add_bar_labels hs t := by
  induction hs with
  | nil => rfl
  | cons x xs ih =>
      simp only [add_bar_labels_trace, List.foldr_cons] at ih ⊢
      by_cases hx : 0 < x
      · rw [if_pos hx]
        show bar_label t x :: _ = _
        rw [ih]
        rfl
      · rw [if_neg hx]
        show "" :: _ = _
        rw [ih]
        simp only [add_bar_labels, List.map_cons, bar_label, if_neg hx]

/-- C9: the guard `h > 0` is tested before the dividing f-string is
evaluated, so on a container whose heights are all zero `add_bar_labels`
performs zero evaluations of `h/total_count` (the instrumented count is 0)
and returns one empty label per segment — in particular it completes like
this even when `total_count = 0`. -/
theorem all_zero_heights_no_division (hs : List ℚ) (t : ℚ)
    (h : ∀ x ∈ hs, x = 0) :
    (add_bar_labels_trace hs t).2 = 0 ∧
      add_bar_labels hs t = hs.map (fun _ => "") ∧
      add_bar_labels hs 0 = add_bar_labels hs t := by
  induction hs with
  | nil => exact ⟨rfl, rfl, rfl⟩
  | cons x xs ih =>
      have hx : x = 0 := h x (List.mem_cons_self x xs)
      obtain ⟨ih1, ih2, ih3⟩ := ih fun y hy => h y (List.mem_cons_of_mem x hy)
      have hneg : ¬ (0 : ℚ) < x := by rw [hx]; exact lt_irrefl 0
      have hb : ∀ u : ℚ, bar_label u x = "" := fun u => by rw [bar_label, if_neg hneg]
      refine ⟨?_, ?_, ?_⟩
      · simpa only [add_bar_labels_trace, List.foldr_cons, if_neg hneg] using ih1
      · simp only [add_bar_labels, List.map_cons] at ih2 ⊢
        rw [hb, ih2]
      · simp only [add_bar_labels, List.map_cons] at ih3 ⊢
        rw [hb, hb, ih3]

theorem all_zero_heights_no_division_witness :
    (add_bar_labels_trace [0, 0] 0).2 = 0 ∧ add_bar_labels [0, 0] 0 = ["", ""] := by
  have h := all_zero_heights_no_division [0, 0] 0 (by decide)
  exact ⟨h.1, by rw [h.2.1]; exact rfl⟩

theorem filter_eq_map_get {α : Type} (p : α → Bool) (l : List α) :
    ∃ idxs : List (Fin l.length),
      idxs.Pairwise (fun a b => a.val < b.val) ∧
        l.filter p = idxs.map l.get := by
  induction l with
  | nil => exact ⟨[], List.Pairwise.nil, rfl⟩
  | cons x xs ih =>
      obtain ⟨idxs, hpw, heq⟩ := ih
      have hmap : (idxs.map Fin.succ).Pairwise
          (fun a b : Fin (x :: xs).length => a.val < b.val) := by
        rw [List.pairwise_map]
        exact hpw.imp fun hab => by
          simpa only [Fin.val_succ] using Nat.succ_lt_succ hab
      have hget : (idxs.map Fin.succ).map (x :: xs).get = idxs.map xs.get := by
        rw [List.map_map]
        exact List.map_congr_left fun i _ => rfl
      by_cases hx : p x
      · refine ⟨⟨0, Nat.succ_pos _⟩ :: idxs.map Fin.succ, ?_, ?_⟩
        · refine List.Pairwise.cons ?_ hmap
          intro b hb
          obtain ⟨a, _, rfl⟩ := List.mem_map.mp hb
          simpa only [Fin.val_succ] using Nat.succ_pos a.val
        · rw [List.filter_cons_of_pos hx, List.map_cons, hget, heq]
          rfl
      · refine ⟨idxs.map Fin.succ, hmap, ?_⟩
        rw [List.filter_cons_of_neg (by simpa using hx), hget, heq]

/-- C10: the Filtered View preserves the dataset's row order: it equals the
dataset read back at a strictly increasing list of row indices (hence if row
i precedes row j in the dataset and both pass the Filter Selection, row i
still precedes row j in the Filtered View); in particular the view is a
subsequence of the dataset. -/
theorem filtered_view_order (df : List Passenger) (s : FilterSelection) :
    (∃ idxs : List (Fin df.length),
        idxs.Pairwise (fun a b => a.val < b.val) ∧
          filtered_df df s = idxs.map df.get) ∧
      (filtered_df df s).Sublist df :=
  ⟨filter_eq_map_get (row_pass s) df, List.filter_sublist df⟩

theorem sum_mem_zero_one_bounds (l : List ℚ) (h : ∀ x ∈ l, x = 0 ∨ x = 1) :
    0 ≤ l.sum ∧ l.sum ≤ (l.length : ℚ) := by
  induction l with
  | nil => simp
  | cons x xs ih =>
      obtain ⟨ih1, ih2⟩ := ih fun y hy => h y (List.mem_cons_of_mem x hy)
      have hx := h x (List.mem_cons_self x xs)
      rw [List.sum_cons, List.length_cons]
      push_cast
      rcases hx with h0 | h1
      · rw [h0]
        constructor <;> linarith
      · rw [h1]
        constructor <;> linarith

theorem survival_rate_bounds (fdf : List Passenger)
    (hsurv : ∀ r ∈ fdf, r.survived = 0 ∨ r.survived = 1) :
    0 ≤ survival_rate fdf ∧ survival_rate fdf ≤ 100 := by
  rw [survival_rate]
  by_cases hlen : 0 < fdf.length
  · rw [if_pos hlen]
    obtain ⟨hs0, hs1⟩ := sum_mem_zero_one_bounds (fdf.map Passenger.survived)
      (by
        intro x hx
        obtain ⟨r, hr, rfl⟩ := List.mem_map.mp hx
        exact hsurv r hr)
    rw [List.length_map] at hs1
    have hn : (0 : ℚ) < (fdf.length : ℚ) := by exact_mod_cast hlen
    constructor
    · exact mul_nonneg (div_nonneg hs0 hn.le) (by norm_num)
    · calc (fdf.map Passenger.survived).sum / (fdf.length : ℚ) * 100
          ≤ 1 * 100 := by
            refine mul_le_mul_of_nonneg_right ?_ (by norm_num)
            exact (div_le_one hn).mpr hs1
        _ = 100 := one_mul 100
  · rw [if_neg hlen]
    norm_num

theorem mean_skipna_nonneg (xs : List (Option ℚ))
    (hx : ∀ o ∈ xs, nonneg_if_present o = true) (q : ℚ)
    (h : mean_skipna xs = some q) : 0 ≤ q := by
  rw [mean_skipna] at h
  by_cases hl : 0 < (xs.filterMap id).length
  · rw [if_pos hl] at h
    have hq := Option.some.inj h
    have hsum : 0 ≤ (xs.filterMap id).sum := by
      refine List.sum_nonneg ?_
      intro y hy
      obtain ⟨o, ho, hoy⟩ := List.mem_filterMap.mp hy
      have hnn := hx o ho
      have ho' : o = some y := hoy
      rw [ho'] at hnn
      simpa [nonneg_if_present] using hnn
    rw [← hq]
    exact div_nonneg hsum (by positivity)
  · rw [if_neg hl] at h
    exact Option.noConfusion h

/-- C5 amended: for every dataset whose `survived` column takes only values
0 and 1 and whose `age` and `fare` values are non-negative where present, and
for every Filter Selection, `survival_rate` lies in [0, 100], and each of
`avg_age` and `avg_fare` is non-negative whenever it denotes a number — it
denotes `NaN` (here `none`) exactly when the view is non-empty and every
entry of that column is missing. -/
theorem metrics_bounded (df : List Passenger) (s : FilterSelection)
    (hsurv : ∀ r ∈ df, r.survived = 0 ∨ r.survived = 1)
    (hage : ∀ r ∈ df, nonneg_if_present r.age = true)
    (hfare : ∀ r ∈ df, nonneg_if_present r.fare = true) :
    0 ≤ survival_rate (filtered_df df s) ∧
      survival_rate (filtered_df df s) ≤ 100 ∧
      (∀ q, avg_age (filtered_df df s) = some q → 0 ≤ q) ∧
      (∀ q, avg_fare (filtered_df df s) = some q → 0 ≤ q) := by
  have hsub : ∀ r ∈ filtered_df df s, r ∈ df :=
    fun r hr => ((mem_filtered_df df s r).mp hr).1
  obtain ⟨h0, h1⟩ := survival_rate_bounds (filtered_df df s)
    fun r hr => hsurv r (hsub r hr)
  refine ⟨h0, h1, ?_, ?_⟩
  · intro q hq
    rw [avg_age] at hq
    by_cases hlen : 0 < (filtered_df df s).length
    · rw [if_pos hlen] at hq
      refine mean_skipna_nonneg _ ?_ q hq
      intro o ho
      obtain ⟨r, hr, rfl⟩ := List.mem_map.mp ho
      exact hage r (hsub r hr)
    · rw [if_neg hlen] at hq
      rw [← Option.some.inj hq]
  · intro q hq
    rw [avg_fare] at hq
    by_cases hlen : 0 < (filtered_df df s).length
    · rw [if_pos hlen] at hq
      refine mean_skipna_nonneg _ ?_ q hq
      intro o ho
      obtain ⟨r, hr, rfl⟩ := List.mem_map.mp ho
      exact hfare r (hsub r hr)
    · rw [if_neg hlen] at hq
      rw [← Option.some.inj hq]

theorem metrics_bounded_witness :
    0 ≤ survival_rate (filtered_df exampleDf examplePclass1) ∧
      survival_rate (filtered_df exampleDf examplePclass1) ≤ 100 :=
  ⟨(metrics_bounded exampleDf examplePclass1 (by decide) (by decide) (by decide)).1,
   (metrics_bounded exampleDf examplePclass1 (by decide) (by decide) (by decide)).2.1⟩

/-- C5 as stated is false: on a dataset that satisfies its hypotheses
(`survived` only 0/1, `age` and `fare` non-negative where present) but whose
single surviving row has a missing `age`, the non-empty Filtered View makes
`avg_age` take pandas' `NaN` (modelled `none`), which is not a non-negative
number. -/
theorem avg_age_nan_counterexample :
    (∀ r ∈ exampleMissingAgeDf, r.survived = 0 ∨ r.survived = 1) ∧
      (∀ r ∈ exampleMissingAgeDf, nonneg_if_present r.age = true) ∧
      (∀ r ∈ exampleMissingAgeDf, nonneg_if_present r.fare = true) ∧
      avg_age (filtered_df exampleMissingAgeDf exampleMissingAgeSel) = none ∧
      ∀ q : ℚ,
        ¬ (avg_age (filtered_df exampleMissingAgeDf exampleMissingAgeSel) = some q ∧
            0 ≤ q) := by
  have hnone : avg_age (filtered_df exampleMissingAgeDf exampleMissingAgeSel) = none := by
    decide
  refine ⟨by decide, by decide, by decide, hnone, ?_⟩
  intro q hq
  rw [hnone] at hq
  exact Option.noConfusion hq.1

/-- C7 as stated is false: the three `add_bar_labels` call sites run
unconditionally on every render, so a Filter Selection that empties the
Filtered View (here: empty allowed set for `sex`) makes the script pass
`total_passengers = 0` as the annotation's `total_count`. -/
theorem unguarded_zero_total_counterexample :
    render_total exampleDf exampleEmptySex = 0 ∧
      ¬ 0 < render_total exampleDf exampleEmptySex := by
  have hnil : filtered_df exampleDf exampleEmptySex = [] := by decide
  have h0 : render_total exampleDf exampleEmptySex = 0 := by
    rw [render_total, hnil]
    simp [total_passengers]
  exact ⟨h0, by rw [h0]; exact lt_irrefl 0⟩

/-- C7 amended: the pipeline passes the Filtered View's row count to
`add_bar_labels` unconditionally, so `total_count = 0` is passed exactly when
the view is empty; but an empty view yields countplots with no hue levels and
no bars, so the annotation has no container to label and the percentage
division is never evaluated. -/
theorem render_zero_total_has_no_bars (df : List Passenger) (s : FilterSelection) :
    render_total df s = ((filtered_df df s).length : ℚ) ∧
      (render_total df s = 0 →
        filtered_df df s = [] ∧
        countplot_containers (filtered_df df s) Passenger.sex = [] ∧
        countplot_containers (filtered_df df s) Passenger.embark_town = [] ∧
        countplot_containers (filtered_df df s) Passenger.pclass = [] ∧
        add_bar_labels_ax
          (countplot_containers (filtered_df df s) Passenger.sex)
          (render_total df s) = []) := by
  refine ⟨rfl, fun h0 => ?_⟩
  have hq : ((filtered_df df s).length : ℚ) = 0 := h0
  have hlen : (filtered_df df s).length = 0 := by exact_mod_cast hq
  have hnil : filtered_df df s = [] := List.length_eq_zero.mp hlen
  rw [hnil]
  exact ⟨rfl, rfl, rfl, rfl, rfl⟩

theorem render_zero_total_has_no_bars_witness :
    filtered_df exampleDf exampleEmptySex = [] ∧
      countplot_containers (filtered_df exampleDf exampleEmptySex) Passenger.sex = [] := by
  have hnil : filtered_df exampleDf exampleEmptySex = [] := by decide
  have h0 : render_total exampleDf exampleEmptySex = 0 := by
    rw [render_total, hnil]
    simp [total_passengers]
  have h := (render_zero_total_has_no_bars exampleDf exampleEmptySex).2 h0
  exact ⟨h.1, h.2.1⟩

end Titanic
